import Mathlib

/-!
Verification of the footprint estimation engine of the
Electronic-Use-Carbon-Footprint-Survey repository.

The repository contains three variants of the estimation engine:
* variant A (`src/src/App.js`, first `SurveySite`, lines 92-145): numeric
  fields parsed with `Number(x) || 0`, a `noDevices` flag, no multipliers;
* variant B (`src/src/App.js`, second `SurveySite`, lines 605-686): same as
  variant A plus power-source and charging-habit multipliers for the device
  category;
* the extended Indian-defaults variant (`src/unnamed/part_000`, lines
  126-267): categorical range labels normalized by `String.includes`
  substring checks, an extended AI model, multipliers, no `noDevices` flag.

JavaScript numbers are embedded as exact rationals (`ℚ`); `Math.round`
is Mathlib's `round` (round half toward +∞), matching JS semantics.
Form fields hold arbitrary JS values (string / number / boolean /
undefined), embedded by `JSVal`; `NaN` is `vnum none`.  A JS `TypeError`
(calling `.includes` on a non-string) is embedded by `Except String`.
-/

/-- A JavaScript value as it can occur in a survey-form field: a string, a
number (`none` models `NaN`), a boolean, or `undefined`. -/
inductive JSVal : Type where
  | vstr : String → JSVal
  | vnum : Option ℚ → JSVal
  | vbool : Bool → JSVal
  | vundef : JSVal
deriving DecidableEq

/-- JS whitespace stripped by `Number()` coercion (the forms relevant here). -/
def jsSpace (c : Char) : Bool := c == ' ' || c == '\t' || c == '\n' || c == '\r'

/-- Base-10 value of a digit list. -/
def digitsToNat (l : List Char) : ℕ := l.foldl (fun a c => a * 10 + (c.toNat - 48)) 0

/-- Parse an unsigned decimal (integer part, optional dot, fraction part) into
mantissa (already multiplied by the sign) and number of fractional digits. -/
def jsParseUnsigned (sgn : ℤ) (u : List Char) : Option (ℤ × ℕ) :=
  match u.span (fun c => c != '.') with
  | (ip, []) =>
      if !ip.isEmpty && ip.all (·.isDigit) then some (sgn * (digitsToNat ip : ℤ), 0)
      else none
  | (ip, _ :: fp) =>
      if (!ip.isEmpty || !fp.isEmpty) && ip.all (·.isDigit) && fp.all (·.isDigit) then
        some (sgn * (digitsToNat (ip ++ fp) : ℤ), fp.length)
      else none

/-- Modelled from the spec: the JavaScript builtin `Number()` string coercion,
restricted to the decimal forms the survey uses ("parse as a base-10 number;
on failure (empty string, non-numeric), substitute 0" — the failure value
`NaN` is `none` here and is turned into `0` by the `|| 0` in `numOr0`). -/
def jsParseNum (l : List Char) : Option (ℤ × ℕ) :=
  let t := ((l.dropWhile jsSpace).reverse.dropWhile jsSpace).reverse
  if t.isEmpty then some (0, 0)
  else
    match t with
    | '-' :: r => jsParseUnsigned (-1) r
    | '+' :: r => jsParseUnsigned 1 r
    | r => jsParseUnsigned 1 r

/-- `Number(s)` for a string `s`, as an exact rational (`none` = `NaN`). -/
def jsNumber (s : String) : Option ℚ := (jsParseNum s.data).map (fun p => (p.1 : ℚ) / 10 ^ p.2)

/-- JS truthiness of a field value ("" , 0, NaN, false, undefined are falsy). -/
def jsTruthy : JSVal → Bool
  | .vstr s => !s.isEmpty
  | .vnum none => false
  | .vnum (some q) => q != 0
  | .vbool b => b
  | .vundef => false

/-- `Number(v) || 0`: numeric coercion of a field with `NaN` (and `0`)
replaced by `0`, exactly as the engines read every numeric field. -/
def numOr0 : JSVal → ℚ
  | .vstr s => (jsNumber s).getD 0
  | .vnum q => q.getD 0
  | .vbool b => if b then 1 else 0
  | .vundef => 0

/-- `needle` is a prefix of `hay` (character lists). -/
def charsStartWith : List Char → List Char → Bool
  | [], _ => true
  | _ :: _, [] => false
  | a :: as, b :: bs => a == b && charsStartWith as bs

/-- `needle` occurs as a contiguous substring of `hay` (character lists). -/
def charsContain (needle : List Char) : List Char → Bool
  | [] => needle.isEmpty
  | h :: t => charsStartWith needle (h :: t) || charsContain needle t

/-- `s.includes(pat)`: substring containment, as used by the extended
variant's categorical normalization. -/
def hasSub (s pat : String) : Bool := charsContain pat.data s.data

/-- The survey response: the union of the form fields the three engine
variants read (reading an absent field in JS yields `undefined`, which is a
`JSVal`, so one superset record covers all variants).  Fields the engines
never read (age, city, quiz answers, ...) are omitted. -/
structure Form : Type where
  smartphone : JSVal
  laptop : JSVal
  tablet : JSVal
  desktop : JSVal
  smartTV : JSVal
  gamingConsole : JSVal
  streamingDevice : JSVal
  smartHomeDevices : JSVal
  router : JSVal
  otherDevices : JSVal
  smartphoneDuration : JSVal
  laptopDuration : JSVal
  tabletDuration : JSVal
  desktopDuration : JSVal
  smartTVDuration : JSVal
  gamingConsoleDuration : JSVal
  streamingDeviceDuration : JSVal
  smartHomeDevicesDuration : JSVal
  routerDuration : JSVal
  otherDevicesDuration : JSVal
  noDevices : JSVal
  renewableEnergyUsage : JSVal
  chargingHabits : JSVal
  streamingAcademicHrsPerWeek : JSVal
  streamingNonAcademicHrsPerWeek : JSVal
  cloudHoursPerWeek : JSVal
  largeTransfersPerMonth : JSVal
  aiInteractionsPerDay : JSVal
  typicalAiSessionMinutes : JSVal
  aiUsageTypes : JSVal
deriving DecidableEq

/-- The initial form state: every field `''`, `noDevices: false`. -/
def emptyForm : Form where
  smartphone := .vstr ""
  laptop := .vstr ""
  tablet := .vstr ""
  desktop := .vstr ""
  smartTV := .vstr ""
  gamingConsole := .vstr ""
  streamingDevice := .vstr ""
  smartHomeDevices := .vstr ""
  router := .vstr ""
  otherDevices := .vstr ""
  smartphoneDuration := .vstr ""
  laptopDuration := .vstr ""
  tabletDuration := .vstr ""
  desktopDuration := .vstr ""
  smartTVDuration := .vstr ""
  gamingConsoleDuration := .vstr ""
  streamingDeviceDuration := .vstr ""
  smartHomeDevicesDuration := .vstr ""
  routerDuration := .vstr ""
  otherDevicesDuration := .vstr ""
  noDevices := .vbool false
  renewableEnergyUsage := .vstr ""
  chargingHabits := .vstr ""
  streamingAcademicHrsPerWeek := .vstr ""
  streamingNonAcademicHrsPerWeek := .vstr ""
  cloudHoursPerWeek := .vstr ""
  largeTransfersPerMonth := .vstr ""
  aiInteractionsPerDay := .vstr ""
  typicalAiSessionMinutes := .vstr ""
  aiUsageTypes := .vstr ""

/-- The engine's output record. -/
structure Breakdown : Type where
  deviceKg : ℚ
  dataKg : ℚ
  aiKg : ℚ
  totalKg : ℚ
deriving DecidableEq

/-- `round(num, 2)` of the source: `Math.round(num * 10^2) / 10^2`
(`Math.round` rounds half toward +∞, which is Mathlib's `round`). -/
def round2 (x : ℚ) : ℚ := (round (x * 100) : ℤ) / 100

/-- Configuration of the two `App.js` variants (their shared `DEFAULTS`
shape); `devicePowerW` is the table lookup `devicePowerW[type] || 0`
(missing category → 0). -/
structure Config : Type where
  gridKgCO2PerKWh : ℚ
  devicePowerW : String → ℚ
  kgCO2PerGB : ℚ
  inrPerTonneCO2 : ℚ
  gbPerStreamingHour : ℚ

/-- The `DEFAULTS.devicePowerW` table of `App.js` (both variants). -/
def defaultPowerW (t : String) : ℚ :=
  if t = "Smartphone" then 5
  else if t = "Laptop" then 50
  else if t = "Tablet" then 10
  else if t = "Desktop" then 150
  else if t = "Smart TV" then 80
  else if t = "Other" then 30
  else if t = "Gaming Console" then 120
  else if t = "Streaming Device" then 15
  else if t = "Smart Home Devices" then 25
  else if t = "Router" then 10
  else 0

/-- The `DEFAULTS` constant of `App.js`. -/
def DEFAULTS : Config where
  gridKgCO2PerKWh := 0.7
  devicePowerW := defaultPowerW
  kgCO2PerGB := 0.05
  inrPerTonneCO2 := 2000
  gbPerStreamingHour := 1.5

/-- Configuration of the extended variant (`INDIAN_DEFAULTS` shape):
the streaming rate is tiered and the AI factor is keyed by usage type. -/
structure ConfigExt : Type where
  gridKgCO2PerKWh : ℚ
  devicePowerW : String → ℚ
  kgCO2PerGB : ℚ
  inrPerTonneCO2 : ℚ
  gbPerStreamingHourSD : ℚ
  gbPerStreamingHourHD : ℚ
  gbPerStreamingHour4K : ℚ
  gbPerStreamingHourDefault : ℚ
  aiText : ℚ
  aiImage : ℚ
  aiCode : ℚ
  aiVoice : ℚ
  aiMixed : ℚ
  aiDefault : ℚ

/-- The `INDIAN_DEFAULTS.devicePowerW` table of the extended variant. -/
def indianPowerW (t : String) : ℚ :=
  if t = "Smartphone" then 3
  else if t = "Laptop" then 65
  else if t = "Tablet" then 8
  else if t = "Desktop" then 180
  else if t = "Smart TV" then 100
  else if t = "Other" then 25
  else if t = "Gaming Console" then 150
  else if t = "Streaming Device" then 12
  else if t = "Smart Home Devices" then 15
  else if t = "Router" then 8
  else 0

/-- The `INDIAN_DEFAULTS` constant of the extended variant. -/
def INDIAN_DEFAULTS : ConfigExt where
  gridKgCO2PerKWh := 0.82
  devicePowerW := indianPowerW
  kgCO2PerGB := 0.065
  inrPerTonneCO2 := 3000
  gbPerStreamingHourSD := 0.3
  gbPerStreamingHourHD := 1.2
  gbPerStreamingHour4K := 4.5
  gbPerStreamingHourDefault := 1.2
  aiText := 0.0001
  aiImage := 0.02
  aiCode := 0.0002
  aiVoice := 0.0001
  aiMixed := 0.005
  aiDefault := 0.0005

/-- `form.field || ""` followed by using the result as the receiver of
`.includes`: a falsy field reads as `""`; a truthy string reads as itself;
a truthy non-string raises `TypeError` at the first `.includes` call. -/
def catStr (v : JSVal) : Except String String :=
  if jsTruthy v then
    match v with
    | .vstr s => .ok s
    | _ => .error "TypeError"
  else .ok ""

/-- Extended variant, academic streaming hours normalization
(`part_000` lines 180-186): ordered substring checks, first match wins. -/
def academicHoursStr (s : String) : ℚ :=
  if hasSub s "1-5" then 3
  else if hasSub s "6-15" then 10
  else if hasSub s "16-30" then 23
  else if hasSub s "31-50" then 40
  else if hasSub s "50+" then 65
  else 0

/-- Extended variant, entertainment streaming hours normalization
(`part_000` lines 189-195). -/
def entertainmentHoursStr (s : String) : ℚ :=
  if hasSub s "1-10" then 5
  else if hasSub s "11-25" then 18
  else if hasSub s "26-40" then 33
  else if hasSub s "41-60" then 50
  else if hasSub s "60+" then 80
  else 0

/-- Extended variant, cloud usage hours normalization
(`part_000` lines 201-207). -/
def cloudHoursStr (s : String) : ℚ :=
  if hasSub s "1-5" then 3
  else if hasSub s "6-15" then 10
  else if hasSub s "16-30" then 23
  else if hasSub s "31-50" then 40
  else if hasSub s "50+" then 65
  else 0

/-- Extended variant, AI interactions-per-day normalization
(`part_000` lines 221-226). -/
def aiInteractionsStr (s : String) : ℚ :=
  if hasSub s "1-5" then 3
  else if hasSub s "6-15" then 10
  else if hasSub s "16-30" then 23
  else if hasSub s "31-50" then 40
  else if hasSub s "50+" then 75
  else 0

/-- Extended variant, AI session-length normalization
(`part_000` lines 229-235). -/
def sessionMinutesStr (s : String) : ℚ :=
  if hasSub s "Less than 1" then 0.5
  else if hasSub s "1-5" then 3
  else if hasSub s "6-15" then 10
  else if hasSub s "16-30" then 23
  else if hasSub s "31-60" then 45
  else if hasSub s "More than 1 hour" then 90
  else 0

/-- Extended variant, AI usage-type multiplier selection
(`part_000` lines 238-243): starts from the `default` factor. -/
def aiTypeMultiplierStr (cfg : ConfigExt) (s : String) : ℚ :=
  if hasSub s "Text generation" then cfg.aiText
  else if hasSub s "Image generation" then cfg.aiImage
  else if hasSub s "Code assistance" then cfg.aiCode
  else if hasSub s "Voice assistants" then cfg.aiVoice
  else if hasSub s "Mixed usage" then cfg.aiMixed
  else cfg.aiDefault

/-- Academic-hours normalization applied to the raw field (may throw). -/
def academicHoursE (v : JSVal) : Except String ℚ :=
  match catStr v with
  | .ok s => .ok (academicHoursStr s)
  | .error e => .error e

/-- Entertainment-hours normalization applied to the raw field. -/
def entertainmentHoursE (v : JSVal) : Except String ℚ :=
  match catStr v with
  | .ok s => .ok (entertainmentHoursStr s)
  | .error e => .error e

/-- Cloud-hours normalization applied to the raw field. -/
def cloudHoursE (v : JSVal) : Except String ℚ :=
  match catStr v with
  | .ok s => .ok (cloudHoursStr s)
  | .error e => .error e

/-- AI interactions normalization applied to the raw field. -/
def aiInteractionsE (v : JSVal) : Except String ℚ :=
  match catStr v with
  | .ok s => .ok (aiInteractionsStr s)
  | .error e => .error e

/-- AI session-length normalization applied to the raw field. -/
def sessionMinutesE (v : JSVal) : Except String ℚ :=
  match catStr v with
  | .ok s => .ok (sessionMinutesStr s)
  | .error e => .error e

/-- AI type-multiplier selection applied to the raw field. -/
def aiTypeMultiplierE (cfg : ConfigExt) (v : JSVal) : Except String ℚ :=
  match catStr v with
  | .ok s => .ok (aiTypeMultiplierStr cfg s)
  | .error e => .error e

/-- `getPowerSourceMultiplier` (variant B and extended variant): a `switch`
on the renewable-energy band; any value other than the five listed strings
(including every non-string) falls to the default `0.8`. -/
def getPowerSourceMultiplier (v : JSVal) : ℚ :=
  if v = .vstr "0% - All conventional energy" then 1.0
  else if v = .vstr "1-25% - Mostly conventional" then 0.9
  else if v = .vstr "26-50% - Mixed sources" then 0.7
  else if v = .vstr "51-75% - Mostly renewable" then 0.4
  else if v = .vstr "76-100% - All or mostly renewable" then 0.2
  else 0.8

/-- `getChargingMultiplier` (variant B and extended variant). -/
def getChargingMultiplier (v : JSVal) : ℚ :=
  if v = .vstr "Always keep plugged in" then 1.3
  else if v = .vstr "Charge overnight (8+ hours)" then 1.1
  else if v = .vstr "Charge when needed (1-3 hours)" then 1.0
  else if v = .vstr "Quick charge frequently (15-30 min)" then 1.2
  else if v = .vstr "Battery saver mode user" then 0.8
  else 1.0

/-- One device category's contribution in variant A: skipped unless
`count > 0 && duration > 0`, else
`count * ((powerW * duration * 365 / 1000) * gridKgCO2PerKWh)`. -/
def rowKgA (pw grid c d : ℚ) : ℚ :=
  if 0 < c ∧ 0 < d then c * ((pw * d * 365 / 1000) * grid) else 0

/-- One device category's contribution in variant B and in the extended
variant: the variant-A base emissions times the power-source and
charging multipliers. -/
def rowKgM (pw grid psm cm c d : ℚ) : ℚ :=
  if 0 < c ∧ 0 < d then (c * ((pw * d * 365 / 1000) * grid)) * psm * cm else 0

/-- Variant A `deviceKg` before rounding: `0` if `!form.noDevices` fails
(JS truthiness), else the `forEach` accumulation over the ten fixed
categories of `deviceData`, in source order. -/
def deviceKgRawA (cfg : Config) (f : Form) : ℚ :=
  if jsTruthy f.noDevices then 0
  else
    rowKgA (cfg.devicePowerW "Smartphone") cfg.gridKgCO2PerKWh
        (numOr0 f.smartphone) (numOr0 f.smartphoneDuration)
    + rowKgA (cfg.devicePowerW "Laptop") cfg.gridKgCO2PerKWh
        (numOr0 f.laptop) (numOr0 f.laptopDuration)
    + rowKgA (cfg.devicePowerW "Tablet") cfg.gridKgCO2PerKWh
        (numOr0 f.tablet) (numOr0 f.tabletDuration)
    + rowKgA (cfg.devicePowerW "Desktop") cfg.gridKgCO2PerKWh
        (numOr0 f.desktop) (numOr0 f.desktopDuration)
    + rowKgA (cfg.devicePowerW "Smart TV") cfg.gridKgCO2PerKWh
        (numOr0 f.smartTV) (numOr0 f.smartTVDuration)
    + rowKgA (cfg.devicePowerW "Gaming Console") cfg.gridKgCO2PerKWh
        (numOr0 f.gamingConsole) (numOr0 f.gamingConsoleDuration)
    + rowKgA (cfg.devicePowerW "Streaming Device") cfg.gridKgCO2PerKWh
        (numOr0 f.streamingDevice) (numOr0 f.streamingDeviceDuration)
    + rowKgA (cfg.devicePowerW "Smart Home Devices") cfg.gridKgCO2PerKWh
        (numOr0 f.smartHomeDevices) (numOr0 f.smartHomeDevicesDuration)
    + rowKgA (cfg.devicePowerW "Router") cfg.gridKgCO2PerKWh
        (numOr0 f.router) (numOr0 f.routerDuration)
    + rowKgA (cfg.devicePowerW "Other") cfg.gridKgCO2PerKWh
        (numOr0 f.otherDevices) (numOr0 f.otherDevicesDuration)

/-- Variant B `deviceKg` before rounding: as variant A but every row is
scaled by the power-source and charging multipliers. -/
def deviceKgRawB (cfg : Config) (f : Form) : ℚ :=
  if jsTruthy f.noDevices then 0
  else
    let psm := getPowerSourceMultiplier f.renewableEnergyUsage
    let cm := getChargingMultiplier f.chargingHabits
    rowKgM (cfg.devicePowerW "Smartphone") cfg.gridKgCO2PerKWh psm cm
        (numOr0 f.smartphone) (numOr0 f.smartphoneDuration)
    + rowKgM (cfg.devicePowerW "Laptop") cfg.gridKgCO2PerKWh psm cm
        (numOr0 f.laptop) (numOr0 f.laptopDuration)
    + rowKgM (cfg.devicePowerW "Tablet") cfg.gridKgCO2PerKWh psm cm
        (numOr0 f.tablet) (numOr0 f.tabletDuration)
    + rowKgM (cfg.devicePowerW "Desktop") cfg.gridKgCO2PerKWh psm cm
        (numOr0 f.desktop) (numOr0 f.desktopDuration)
    + rowKgM (cfg.devicePowerW "Smart TV") cfg.gridKgCO2PerKWh psm cm
        (numOr0 f.smartTV) (numOr0 f.smartTVDuration)
    + rowKgM (cfg.devicePowerW "Gaming Console") cfg.gridKgCO2PerKWh psm cm
        (numOr0 f.gamingConsole) (numOr0 f.gamingConsoleDuration)
    + rowKgM (cfg.devicePowerW "Streaming Device") cfg.gridKgCO2PerKWh psm cm
        (numOr0 f.streamingDevice) (numOr0 f.streamingDeviceDuration)
    + rowKgM (cfg.devicePowerW "Smart Home Devices") cfg.gridKgCO2PerKWh psm cm
        (numOr0 f.smartHomeDevices) (numOr0 f.smartHomeDevicesDuration)
    + rowKgM (cfg.devicePowerW "Router") cfg.gridKgCO2PerKWh psm cm
        (numOr0 f.router) (numOr0 f.routerDuration)
    + rowKgM (cfg.devicePowerW "Other") cfg.gridKgCO2PerKWh psm cm
        (numOr0 f.otherDevices) (numOr0 f.otherDevicesDuration)

/-- Extended variant `deviceKg` before rounding: the same accumulation as
variant B but with no `noDevices` guard (`part_000` lines 128-176). -/
def deviceKgRawExt (cfg : ConfigExt) (f : Form) : ℚ :=
  let psm := getPowerSourceMultiplier f.renewableEnergyUsage
  let cm := getChargingMultiplier f.chargingHabits
  rowKgM (cfg.devicePowerW "Smartphone") cfg.gridKgCO2PerKWh psm cm
      (numOr0 f.smartphone) (numOr0 f.smartphoneDuration)
  + rowKgM (cfg.devicePowerW "Laptop") cfg.gridKgCO2PerKWh psm cm
      (numOr0 f.laptop) (numOr0 f.laptopDuration)
  + rowKgM (cfg.devicePowerW "Tablet") cfg.gridKgCO2PerKWh psm cm
      (numOr0 f.tablet) (numOr0 f.tabletDuration)
  + rowKgM (cfg.devicePowerW "Desktop") cfg.gridKgCO2PerKWh psm cm
      (numOr0 f.desktop) (numOr0 f.desktopDuration)
  + rowKgM (cfg.devicePowerW "Smart TV") cfg.gridKgCO2PerKWh psm cm
      (numOr0 f.smartTV) (numOr0 f.smartTVDuration)
  + rowKgM (cfg.devicePowerW "Gaming Console") cfg.gridKgCO2PerKWh psm cm
      (numOr0 f.gamingConsole) (numOr0 f.gamingConsoleDuration)
  + rowKgM (cfg.devicePowerW "Streaming Device") cfg.gridKgCO2PerKWh psm cm
      (numOr0 f.streamingDevice) (numOr0 f.streamingDeviceDuration)
  + rowKgM (cfg.devicePowerW "Smart Home Devices") cfg.gridKgCO2PerKWh psm cm
      (numOr0 f.smartHomeDevices) (numOr0 f.smartHomeDevicesDuration)
  + rowKgM (cfg.devicePowerW "Router") cfg.gridKgCO2PerKWh psm cm
      (numOr0 f.router) (numOr0 f.routerDuration)
  + rowKgM (cfg.devicePowerW "Other") cfg.gridKgCO2PerKWh psm cm
      (numOr0 f.otherDevices) (numOr0 f.otherDevicesDuration)

/-- Variants A and B `dataKg` before rounding (`App.js` lines 119-125 and
659-666, textually identical): weekly hours × 4.345 weeks/month ×
rate × 12 months, plus bulk transfers × 12, times the per-GB factor. -/
def dataKgRawA (cfg : Config) (f : Form) : ℚ :=
  let academic := numOr0 f.streamingAcademicHrsPerWeek
  let nonAcad := numOr0 f.streamingNonAcademicHrsPerWeek
  let streamingHoursPerMonth := (academic + nonAcad) * 4.345
  let gbFromStreamingPerYear := streamingHoursPerMonth * cfg.gbPerStreamingHour * 12
  let gbFromBigTransfersPerYear := numOr0 f.largeTransfersPerMonth * 12
  (gbFromStreamingPerYear + gbFromBigTransfersPerYear) * cfg.kgCO2PerGB

/-- Variants A and B `aiKg` before rounding (`App.js` lines 128-130 and
669-671): `interactions * minutes * 365 * 0.001`. -/
def aiKgRawA (f : Form) : ℚ :=
  numOr0 f.aiInteractionsPerDay * numOr0 f.typicalAiSessionMinutes * 365 * 0.001

/-- Variant A `results`: each component rounded to 2 decimals, `totalKg`
rounded once over the unrounded sum. -/
def resultsA (cfg : Config) (f : Form) : Breakdown where
  deviceKg := round2 (deviceKgRawA cfg f)
  dataKg := round2 (dataKgRawA cfg f)
  aiKg := round2 (aiKgRawA f)
  totalKg := round2 (deviceKgRawA cfg f + dataKgRawA cfg f + aiKgRawA f)

/-- Variant B `results` (differs from variant A only in the device part). -/
def resultsB (cfg : Config) (f : Form) : Breakdown where
  deviceKg := round2 (deviceKgRawB cfg f)
  dataKg := round2 (dataKgRawA cfg f)
  aiKg := round2 (aiKgRawA f)
  totalKg := round2 (deviceKgRawB cfg f + dataKgRawA cfg f + aiKgRawA f)

/-- Extended variant `dataKg` before rounding (`part_000` lines 178-212):
categorical streaming and cloud midpoints (each normalization may throw),
annualized ×52, cloud at 0.5 GB/hour, bulk transfers ×12. -/
def dataKgRawE (cfg : ConfigExt) (f : Form) : Except String ℚ :=
  match academicHoursE f.streamingAcademicHrsPerWeek with
  | .error e => .error e
  | .ok academicHours =>
    match entertainmentHoursE f.streamingNonAcademicHrsPerWeek with
    | .error e => .error e
    | .ok entertainmentHours =>
      match cloudHoursE f.cloudHoursPerWeek with
      | .error e => .error e
      | .ok cloudHours =>
        let gbFromStreamingPerYear :=
          (academicHours + entertainmentHours) * cfg.gbPerStreamingHourDefault * 52
        let gbFromCloudPerYear := cloudHours * 52 * 0.5
        let gbFromBigTransfersPerYear := numOr0 f.largeTransfersPerMonth * 12
        .ok ((gbFromStreamingPerYear + gbFromCloudPerYear + gbFromBigTransfersPerYear)
              * cfg.kgCO2PerGB)

/-- Extended variant `aiKg` before rounding (`part_000` lines 214-250):
interactions, session length and type multiplier are normalized in source
order (each may throw); the product is computed only when both interactions
and session length are positive, with `queriesPerSession = max(1, m/2)`. -/
def aiKgRawE (cfg : ConfigExt) (f : Form) : Except String ℚ :=
  match aiInteractionsE f.aiInteractionsPerDay with
  | .error e => .error e
  | .ok aiInteractionsDaily =>
    match sessionMinutesE f.typicalAiSessionMinutes with
    | .error e => .error e
    | .ok sessionMinutes =>
      match aiTypeMultiplierE cfg f.aiUsageTypes with
      | .error e => .error e
      | .ok aiTypeMultiplier =>
        .ok (if 0 < aiInteractionsDaily ∧ 0 < sessionMinutes then
               aiInteractionsDaily * max 1 (sessionMinutes / 2) * 365 * aiTypeMultiplier
             else 0)

/-- Extended variant `results` (`part_000` lines 126-260): device, data and
AI parts in source order; a `TypeError` in any normalization aborts the
computation. -/
def resultsExt (cfg : ConfigExt) (f : Form) : Except String Breakdown :=
  let deviceKg := deviceKgRawExt cfg f
  match dataKgRawE cfg f with
  | .error e => .error e
  | .ok dataKg =>
    match aiKgRawE cfg f with
    | .error e => .error e
    | .ok aiKg =>
      .ok { deviceKg := round2 deviceKg
            dataKg := round2 dataKg
            aiKg := round2 aiKg
            totalKg := round2 (deviceKg + dataKg + aiKg) }

/-- The extended engine at its fixed `INDIAN_DEFAULTS` configuration. -/
def resultsIndian (f : Form) : Except String Breakdown := resultsExt INDIAN_DEFAULTS f

/-- Variants A and B unrounded currency value: `tonne * inrPerTonneCO2`
with `tonne = kg / 1000` (the source's `Number(x) || 0` guards are identity
on an exact rational). -/
def tonneValueA (cfg : Config) (kg : ℚ) : ℚ := kg / 1000 * cfg.inrPerTonneCO2

/-- Variant A/B `kgToInr`: the unrounded value rounded to 2 decimals. -/
def kgToInrA (cfg : Config) (kg : ℚ) : ℚ := round2 (tonneValueA cfg kg)

/-- The extended variant's fixed social-cost multiplier. -/
def socialCostMultiplier : ℚ := 1.5

/-- Extended variant unrounded currency value (`part_000` lines 262-267). -/
def tonneValueExt (cfg : ConfigExt) (kg : ℚ) : ℚ :=
  kg / 1000 * cfg.inrPerTonneCO2 * socialCostMultiplier

/-- Extended variant `kgToInr`. -/
def kgToInrExt (cfg : ConfigExt) (kg : ℚ) : ℚ := round2 (tonneValueExt cfg kg)

/-- Annual streaming gigabytes, monthly-hours model (`App.js` variants):
`(hours/week × 4.345) × rate × 12`. -/
def gbStreamingAnnualMonthly (h r : ℚ) : ℚ := h * 4.345 * r * 12

/-- Annual streaming gigabytes, weekly-hours model (extended variant):
`hours/week × rate × 52`. -/
def gbStreamingAnnualWeekly (h r : ℚ) : ℚ := h * r * 52

/-! ### Helper lemmas about the embedded operations -/

theorem round2_zero : round2 0 = 0 := by simp [round2]

theorem round2_eq_floor (x : ℚ) : round2 x = (⌊x * 100 + 1 / 2⌋ : ℤ) / 100 := by
  rw [round2, round_eq]

theorem round2_mono {x y : ℚ} (h : x ≤ y) : round2 x ≤ round2 y := by
  unfold round2
  have hr : round (x * 100) ≤ round (y * 100) := by
    rw [round_eq, round_eq]
    exact Int.floor_le_floor (by linarith)
  have hq : ((round (x * 100) : ℤ) : ℚ) ≤ ((round (y * 100) : ℤ) : ℚ) := by exact_mod_cast hr
  linarith

theorem round2_nonneg {x : ℚ} (h : 0 ≤ x) : 0 ≤ round2 x := by
  have := round2_mono h
  rwa [round2_zero] at this

theorem round2_double_bound (v : ℚ) : |round2 (2 * v) - 2 * round2 v| ≤ 3 / 200 := by
  have h1 := abs_sub_round (2 * v * 100)
  have h2 := abs_sub_round (v * 100)
  rw [abs_le] at h1 h2 ⊢
  unfold round2
  constructor
  · nlinarith [h1.1, h1.2, h2.1, h2.2]
  · nlinarith [h1.1, h1.2, h2.1, h2.2]

theorem rowKgA_nonneg (pw grid c d : ℚ) (hpw : 0 ≤ pw) (hg : 0 ≤ grid) :
    0 ≤ rowKgA pw grid c d := by
  unfold rowKgA
  split
  · rename_i h
    have hd : (0 : ℚ) ≤ d := h.2.le
    have : (0 : ℚ) ≤ pw * d * 365 / 1000 * grid := by positivity
    have hc : (0 : ℚ) ≤ c := h.1.le
    nlinarith
  · exact le_refl 0

theorem rowKgA_mono (pw grid : ℚ) (hpw : 0 ≤ pw) (hg : 0 ≤ grid) {c c' d d' : ℚ}
    (hc : c ≤ c') (hd : d ≤ d') : rowKgA pw grid c d ≤ rowKgA pw grid c' d' := by
  by_cases h : 0 < c ∧ 0 < d
  · have h' : 0 < c' ∧ 0 < d' := ⟨lt_of_lt_of_le h.1 hc, lt_of_lt_of_le h.2 hd⟩
    unfold rowKgA
    rw [if_pos h, if_pos h']
    have key : c * d ≤ c' * d' := mul_le_mul hc hd h.2.le (le_trans h.1.le hc)
    have hK : (0 : ℚ) ≤ pw * 365 / 1000 * grid := by positivity
    calc c * ((pw * d * 365 / 1000) * grid) = (c * d) * (pw * 365 / 1000 * grid) := by ring
      _ ≤ (c' * d') * (pw * 365 / 1000 * grid) := mul_le_mul_of_nonneg_right key hK
      _ = c' * ((pw * d' * 365 / 1000) * grid) := by ring
  · unfold rowKgA
    rw [if_neg h]
    exact rowKgA_nonneg pw grid c' d' hpw hg

theorem rowKgM_eq (pw grid psm cm c d : ℚ) :
    rowKgM pw grid psm cm c d = rowKgA pw grid c d * psm * cm := by
  unfold rowKgM rowKgA
  split <;> ring

theorem rowKgM_nonneg (pw grid psm cm c d : ℚ) (hpw : 0 ≤ pw) (hg : 0 ≤ grid)
    (hpsm : 0 ≤ psm) (hcm : 0 ≤ cm) : 0 ≤ rowKgM pw grid psm cm c d := by
  rw [rowKgM_eq]
  exact mul_nonneg (mul_nonneg (rowKgA_nonneg pw grid c d hpw hg) hpsm) hcm

theorem rowKgM_mono (pw grid psm cm : ℚ) (hpw : 0 ≤ pw) (hg : 0 ≤ grid)
    (hpsm : 0 ≤ psm) (hcm : 0 ≤ cm) {c c' d d' : ℚ} (hc : c ≤ c') (hd : d ≤ d') :
    rowKgM pw grid psm cm c d ≤ rowKgM pw grid psm cm c' d' := by
  rw [rowKgM_eq, rowKgM_eq]
  exact mul_le_mul_of_nonneg_right
    (mul_le_mul_of_nonneg_right (rowKgA_mono pw grid hpw hg hc hd) hpsm) hcm

theorem getPowerSourceMultiplier_nonneg (v : JSVal) : 0 ≤ getPowerSourceMultiplier v := by
  unfold getPowerSourceMultiplier
  split_ifs <;> norm_num

theorem getChargingMultiplier_nonneg (v : JSVal) : 0 ≤ getChargingMultiplier v := by
  unfold getChargingMultiplier
  split_ifs <;> norm_num

theorem academicHoursStr_nonneg (s : String) : 0 ≤ academicHoursStr s := by
  unfold academicHoursStr
  split_ifs <;> norm_num

theorem entertainmentHoursStr_nonneg (s : String) : 0 ≤ entertainmentHoursStr s := by
  unfold entertainmentHoursStr
  split_ifs <;> norm_num

theorem cloudHoursStr_nonneg (s : String) : 0 ≤ cloudHoursStr s := by
  unfold cloudHoursStr
  split_ifs <;> norm_num

theorem aiInteractionsStr_nonneg (s : String) : 0 ≤ aiInteractionsStr s := by
  unfold aiInteractionsStr
  split_ifs <;> norm_num

theorem sessionMinutesStr_nonneg (s : String) : 0 ≤ sessionMinutesStr s := by
  unfold sessionMinutesStr
  split_ifs <;> norm_num

theorem aiTypeMultiplierStr_IN_nonneg (s : String) :
    0 ≤ aiTypeMultiplierStr INDIAN_DEFAULTS s := by
  unfold aiTypeMultiplierStr
  split_ifs <;> norm_num [INDIAN_DEFAULTS]

theorem indianPowerW_nonneg (t : String) : 0 ≤ indianPowerW t := by
  unfold indianPowerW
  split_ifs <;> norm_num

theorem defaultPowerW_nonneg (t : String) : 0 ≤ defaultPowerW t := by
  unfold defaultPowerW
  split_ifs <;> norm_num

theorem dataKgRawE_ok {cfg : ConfigExt} {f : Form} {q : ℚ}
    (h : dataKgRawE cfg f = .ok q) :
    ∃ sa se sc, catStr f.streamingAcademicHrsPerWeek = .ok sa ∧
      catStr f.streamingNonAcademicHrsPerWeek = .ok se ∧
      catStr f.cloudHoursPerWeek = .ok sc ∧
      q = ((academicHoursStr sa + entertainmentHoursStr se) * cfg.gbPerStreamingHourDefault * 52
            + cloudHoursStr sc * 52 * 0.5 + numOr0 f.largeTransfersPerMonth * 12)
          * cfg.kgCO2PerGB := by
  unfold dataKgRawE academicHoursE entertainmentHoursE cloudHoursE at h
  cases h1 : catStr f.streamingAcademicHrsPerWeek with
  | error e => rw [h1] at h; simp at h
  | ok sa =>
    rw [h1] at h
    cases h2 : catStr f.streamingNonAcademicHrsPerWeek with
    | error e => rw [h2] at h; simp at h
    | ok se =>
      rw [h2] at h
      cases h3 : catStr f.cloudHoursPerWeek with
      | error e => rw [h3] at h; simp at h
      | ok sc =>
        rw [h3] at h
        simp only [Except.ok.injEq] at h
        exact ⟨sa, se, sc, rfl, rfl, rfl, h.symm⟩

theorem aiKgRawE_ok {cfg : ConfigExt} {f : Form} {q : ℚ}
    (h : aiKgRawE cfg f = .ok q) :
    ∃ si sm st, catStr f.aiInteractionsPerDay = .ok si ∧
      catStr f.typicalAiSessionMinutes = .ok sm ∧
      catStr f.aiUsageTypes = .ok st ∧
      q = (if 0 < aiInteractionsStr si ∧ 0 < sessionMinutesStr sm then
             aiInteractionsStr si * max 1 (sessionMinutesStr sm / 2) * 365
               * aiTypeMultiplierStr cfg st
           else 0) := by
  unfold aiKgRawE aiInteractionsE sessionMinutesE aiTypeMultiplierE at h
  cases h1 : catStr f.aiInteractionsPerDay with
  | error e => rw [h1] at h; simp at h
  | ok si =>
    rw [h1] at h
    cases h2 : catStr f.typicalAiSessionMinutes with
    | error e => rw [h2] at h; simp at h
    | ok sm =>
      rw [h2] at h
      cases h3 : catStr f.aiUsageTypes with
      | error e => rw [h3] at h; simp at h
      | ok st =>
        rw [h3] at h
        simp only [Except.ok.injEq] at h
        exact ⟨si, sm, st, rfl, rfl, rfl, h.symm⟩

theorem resultsExt_ok {cfg : ConfigExt} {f : Form} {b : Breakdown}
    (h : resultsExt cfg f = .ok b) :
    ∃ da ai, dataKgRawE cfg f = .ok da ∧ aiKgRawE cfg f = .ok ai ∧
      b = { deviceKg := round2 (deviceKgRawExt cfg f)
            dataKg := round2 da
            aiKg := round2 ai
            totalKg := round2 (deviceKgRawExt cfg f + da + ai) } := by
  unfold resultsExt at h
  cases h1 : dataKgRawE cfg f with
  | error e => rw [h1] at h; simp at h
  | ok da =>
    rw [h1] at h
    cases h2 : aiKgRawE cfg f with
    | error e => rw [h2] at h; simp at h
    | ok ai =>
      rw [h2] at h
      simp only [Except.ok.injEq] at h
      exact ⟨da, ai, rfl, rfl, h.symm⟩

/-- The empty (initial) form evaluates to the all-zero breakdown in the
extended engine; used to instantiate several hypotheses at a concrete input. -/
theorem resultsExt_empty : resultsExt INDIAN_DEFAULTS emptyForm = .ok ⟨0, 0, 0, 0⟩ := by
  have h1 : catStr (.vstr "") = .ok "" := rfl
  have hp : jsParseNum "".data = some (0, 0) := by decide
  have ha : academicHoursStr "" = 0 := by decide
  have hb : entertainmentHoursStr "" = 0 := by decide
  have hc : cloudHoursStr "" = 0 := by decide
  have hd : aiInteractionsStr "" = 0 := by decide
  have he : sessionMinutesStr "" = 0 := by decide
  simp [resultsExt, dataKgRawE, aiKgRawE, academicHoursE,
    entertainmentHoursE, cloudHoursE, aiInteractionsE, sessionMinutesE,
    aiTypeMultiplierE, emptyForm, h1, ha, hb, hc, hd, he,
    deviceKgRawExt, rowKgM, numOr0, jsNumber, hp,
    getPowerSourceMultiplier, getChargingMultiplier, INDIAN_DEFAULTS, round2]

/-- C1: for every survey response and configuration, each returned component
of the breakdown is independently `round(x, 2)` of its unrounded value, and
`totalKg` is `round(·, 2)` applied once to the sum of the three unrounded
components (in all three engine variants), where `round(·, 2)` is half-up
rounding at 10⁻² resolution (`⌊x·100 + 1/2⌋ / 100`). -/
theorem claim_C1_rounding_contract (cfg : Config) (cfgE : ConfigExt) (f : Form)
    (b : Breakdown) (hb : resultsExt cfgE f = .ok b) :
    ((resultsA cfg f).deviceKg = round2 (deviceKgRawA cfg f)
      ∧ (resultsA cfg f).dataKg = round2 (dataKgRawA cfg f)
      ∧ (resultsA cfg f).aiKg = round2 (aiKgRawA f)
      ∧ (resultsA cfg f).totalKg
          = round2 (deviceKgRawA cfg f + dataKgRawA cfg f + aiKgRawA f))
    ∧ ((resultsB cfg f).deviceKg = round2 (deviceKgRawB cfg f)
      ∧ (resultsB cfg f).dataKg = round2 (dataKgRawA cfg f)
      ∧ (resultsB cfg f).aiKg = round2 (aiKgRawA f)
      ∧ (resultsB cfg f).totalKg
          = round2 (deviceKgRawB cfg f + dataKgRawA cfg f + aiKgRawA f))
    ∧ (∃ da ai, dataKgRawE cfgE f = .ok da ∧ aiKgRawE cfgE f = .ok ai
        ∧ b.deviceKg = round2 (deviceKgRawExt cfgE f)
        ∧ b.dataKg = round2 da ∧ b.aiKg = round2 ai
        ∧ b.totalKg = round2 (deviceKgRawExt cfgE f + da + ai))
    ∧ (∀ x : ℚ, round2 x = (⌊x * 100 + 1 / 2⌋ : ℤ) / 100) := by
  refine ⟨⟨rfl, rfl, rfl, rfl⟩, ⟨rfl, rfl, rfl, rfl⟩, ?_, round2_eq_floor⟩
  obtain ⟨da, ai, h1, h2, h3⟩ := resultsExt_ok hb
  subst h3
  exact ⟨da, ai, h1, h2, rfl, rfl, rfl, rfl⟩

/-- Witness for C1 at the concrete empty form. -/
theorem claim_C1_witness :
    (resultsA DEFAULTS emptyForm).totalKg
      = round2 (deviceKgRawA DEFAULTS emptyForm + dataKgRawA DEFAULTS emptyForm
          + aiKgRawA emptyForm)
    ∧ ∃ da ai, dataKgRawE INDIAN_DEFAULTS emptyForm = .ok da
        ∧ aiKgRawE INDIAN_DEFAULTS emptyForm = .ok ai
        ∧ (Breakdown.mk 0 0 0 0).deviceKg = round2 (deviceKgRawExt INDIAN_DEFAULTS emptyForm)
        ∧ (Breakdown.mk 0 0 0 0).dataKg = round2 da
        ∧ (Breakdown.mk 0 0 0 0).aiKg = round2 ai
        ∧ (Breakdown.mk 0 0 0 0).totalKg
            = round2 (deviceKgRawExt INDIAN_DEFAULTS emptyForm + da + ai) := by
  have h := claim_C1_rounding_contract DEFAULTS INDIAN_DEFAULTS emptyForm
    ⟨0, 0, 0, 0⟩ resultsExt_empty
  exact ⟨h.1.2.2.2, h.2.2.1⟩

/-- C2: in the extended variant's categorical normalization, every label
containing the substring "1-5" maps to the "1-5" midpoint 3 (the "1-5"
check comes first and `"31-50"` contains `"1-5"`); in particular the
"31-50" options for AI interactions, academic streaming and cloud hours
map to 3 rather than 40. -/
theorem claim_C2_onefive_substring :
    (∀ s : String, hasSub s "1-5" = true →
        aiInteractionsStr s = 3 ∧ academicHoursStr s = 3 ∧ cloudHoursStr s = 3)
    ∧ hasSub "31-50" "1-5" = true
    ∧ aiInteractionsStr "31-50 times" = 3
    ∧ academicHoursStr "31-50 hrs - Very heavy (intensive programs)" = 3
    ∧ cloudHoursStr "31-50 hrs - Very heavy usage (streaming, gaming)" = 3 := by
  refine ⟨fun s h => ⟨?_, ?_, ?_⟩, by decide, by decide, by decide, by decide⟩
  · simp [aiInteractionsStr, h]
  · simp [academicHoursStr, h]
  · simp [cloudHoursStr, h]

/-- Witness for C2 at the concrete "31-50" range labels. -/
theorem claim_C2_witness :
    aiInteractionsStr "31-50 times" = 3
    ∧ academicHoursStr "31-50 hrs - Very heavy (intensive programs)" = 3 := by
  refine ⟨(claim_C2_onefive_substring.1 "31-50 times" (by decide)).1,
    (claim_C2_onefive_substring.1 "31-50 hrs - Very heavy (intensive programs)"
      (by decide)).2.1⟩

/-- The spec's example scenario C as a concrete form for the extended
variant. -/
def exampleCForm : Form :=
  { emptyForm with
    aiInteractionsPerDay := .vstr "1-5 times"
    typicalAiSessionMinutes := .vstr "1-5 minutes"
    aiUsageTypes := .vstr "Text generation (ChatGPT, etc.)" }

/-- C7 counterexample: at scenario C the engine's unrounded aiKg is the
product `3 * 1.5 * 365 * 0.0001`, which equals 0.16425 and is NOT 0.164 as
the claim states. -/
theorem claim_C7_counterexample :
    aiKgRawE INDIAN_DEFAULTS exampleCForm = .ok (3 * 1.5 * 365 * 0.0001)
    ∧ aiKgRawE INDIAN_DEFAULTS exampleCForm ≠ .ok 0.164
    ∧ (3 * 1.5 * 365 * 0.0001 : ℚ) = 0.16425 := by
  have h2 : catStr (.vstr "1-5 times") = .ok "1-5 times" := rfl
  have h3 : catStr (.vstr "1-5 minutes") = .ok "1-5 minutes" := rfl
  have h4 : catStr (.vstr "Text generation (ChatGPT, etc.)")
      = .ok "Text generation (ChatGPT, etc.)" := rfl
  have hd : aiInteractionsStr "1-5 times" = 3 := by decide
  have he : sessionMinutesStr "1-5 minutes" = 3 := by decide
  have hf : hasSub "Text generation (ChatGPT, etc.)" "Text generation" = true := by decide
  refine ⟨?_, ?_, by norm_num⟩ <;>
    simp [aiKgRawE, aiInteractionsE, sessionMinutesE, aiTypeMultiplierE,
      aiTypeMultiplierStr, exampleCForm, emptyForm, h2, h3, h4, hd, he, hf,
      INDIAN_DEFAULTS, max_def] <;>
    norm_num

/-- C7 (amended): at scenario C ("1-5 times", "1-5 minutes", "Text
generation") the extended engine normalizes to midpoints 3 and 3,
multiplier 0.0001, computes `queriesPerSession = max(1, 3/2) = 1.5` and the
unrounded `aiKg = 3 * 1.5 * 365 * 0.0001 = 0.16425`, which rounds to 0.16
in the returned breakdown. -/
theorem claim_C7_ai_example :
    aiInteractionsStr "1-5 times" = 3
    ∧ sessionMinutesStr "1-5 minutes" = 3
    ∧ aiTypeMultiplierStr INDIAN_DEFAULTS "Text generation (ChatGPT, etc.)" = 0.0001
    ∧ max (1 : ℚ) (3 / 2) = 1.5
    ∧ aiKgRawE INDIAN_DEFAULTS exampleCForm = .ok 0.16425
    ∧ resultsIndian exampleCForm = .ok ⟨0, 0, 0.16, 0.16⟩ := by
  have h1 : catStr (.vstr "") = .ok "" := rfl
  have h2 : catStr (.vstr "1-5 times") = .ok "1-5 times" := rfl
  have h3 : catStr (.vstr "1-5 minutes") = .ok "1-5 minutes" := rfl
  have h4 : catStr (.vstr "Text generation (ChatGPT, etc.)")
      = .ok "Text generation (ChatGPT, etc.)" := rfl
  have hp0 : jsParseNum "".data = some (0, 0) := by decide
  have ha : academicHoursStr "" = 0 := by decide
  have hb : entertainmentHoursStr "" = 0 := by decide
  have hc : cloudHoursStr "" = 0 := by decide
  have hd : aiInteractionsStr "1-5 times" = 3 := by decide
  have he : sessionMinutesStr "1-5 minutes" = 3 := by decide
  have hf : hasSub "Text generation (ChatGPT, etc.)" "Text generation" = true := by decide
  refine ⟨hd, he, ?_, by norm_num [max_def], ?_, ?_⟩
  · simp [aiTypeMultiplierStr, hf, INDIAN_DEFAULTS]
  · simp [aiKgRawE, aiInteractionsE, sessionMinutesE, aiTypeMultiplierE,
      aiTypeMultiplierStr, exampleCForm, emptyForm, h2, h3, h4, hd, he, hf,
      INDIAN_DEFAULTS, max_def]
    norm_num
  · simp [resultsIndian, resultsExt, dataKgRawE, aiKgRawE, academicHoursE,
      entertainmentHoursE, cloudHoursE, aiInteractionsE, sessionMinutesE,
      aiTypeMultiplierE, aiTypeMultiplierStr, exampleCForm, emptyForm,
      h1, h2, h3, h4, ha, hb, hc, hd, he, hf,
      deviceKgRawExt, rowKgM, numOr0, jsNumber, hp0,
      getPowerSourceMultiplier, getChargingMultiplier, INDIAN_DEFAULTS, round2]
    norm_num [round_eq, max_def]

/-- C8: in the extended AI model, whenever the interactions-per-day field or
the session-length field resolves to 0 under categorical normalization, the
returned aiKg is 0, whatever the AI usage-type field holds; unmatched
labels, the empty string and the "0 - Don't use AI" option all resolve
to 0. -/
theorem claim_C8_ai_guard (cfgE : ConfigExt) (f : Form) (b : Breakdown)
    (hb : resultsExt cfgE f = .ok b)
    (h0 : aiInteractionsE f.aiInteractionsPerDay = .ok 0
        ∨ sessionMinutesE f.typicalAiSessionMinutes = .ok 0) :
    b.aiKg = 0
    ∧ aiInteractionsStr "0 - Don't use AI" = 0
    ∧ aiInteractionsStr "" = 0
    ∧ sessionMinutesStr "" = 0 := by
  refine ⟨?_, by decide, by decide, by decide⟩
  obtain ⟨da, ai, hda, hai, hbeq⟩ := resultsExt_ok hb
  obtain ⟨si, sm, st, h1, h2, h3, hq⟩ := aiKgRawE_ok hai
  have hai0 : ai = 0 := by
    rcases h0 with h0 | h0
    · unfold aiInteractionsE at h0
      rw [h1] at h0
      simp only [Except.ok.injEq] at h0
      rw [hq, if_neg]
      rintro ⟨hpos, -⟩
      rw [h0] at hpos
      exact lt_irrefl 0 hpos
    · unfold sessionMinutesE at h0
      rw [h2] at h0
      simp only [Except.ok.injEq] at h0
      rw [hq, if_neg]
      rintro ⟨-, hpos⟩
      rw [h0] at hpos
      exact lt_irrefl 0 hpos
  subst hbeq
  simp [hai0, round2_zero]

/-- A concrete form choosing "0 - Don't use AI" together with a nonzero
session length and an AI type with a large factor. -/
def noAiForm : Form :=
  { emptyForm with
    aiInteractionsPerDay := .vstr "0 - Don't use AI"
    typicalAiSessionMinutes := .vstr "More than 1 hour"
    aiUsageTypes := .vstr "Image generation (DALL-E, etc.)" }

/-- Witness for C8 at the concrete "0 - Don't use AI" form. -/
theorem claim_C8_witness : (Breakdown.mk 0 0 0 0).aiKg = 0 := by
  have h1 : catStr (.vstr "") = .ok "" := rfl
  have h2 : catStr (.vstr "0 - Don't use AI") = .ok "0 - Don't use AI" := rfl
  have h3 : catStr (.vstr "More than 1 hour") = .ok "More than 1 hour" := rfl
  have h4 : catStr (.vstr "Image generation (DALL-E, etc.)")
      = .ok "Image generation (DALL-E, etc.)" := rfl
  have hp0 : jsParseNum "".data = some (0, 0) := by decide
  have ha : academicHoursStr "" = 0 := by decide
  have hbb : entertainmentHoursStr "" = 0 := by decide
  have hc : cloudHoursStr "" = 0 := by decide
  have hd : aiInteractionsStr "0 - Don't use AI" = 0 := by decide
  have he : sessionMinutesStr "More than 1 hour" = 90 := by decide
  have hb : resultsExt INDIAN_DEFAULTS noAiForm = .ok ⟨0, 0, 0, 0⟩ := by
    simp [resultsExt, dataKgRawE, aiKgRawE, academicHoursE,
      entertainmentHoursE, cloudHoursE, aiInteractionsE, sessionMinutesE,
      aiTypeMultiplierE, noAiForm, emptyForm, h1, h2, h3, h4, ha, hbb, hc, hd, he,
      deviceKgRawExt, rowKgM, numOr0, jsNumber, hp0,
      getPowerSourceMultiplier, getChargingMultiplier, INDIAN_DEFAULTS, round2]
  have h0 : aiInteractionsE noAiForm.aiInteractionsPerDay = .ok 0 := by
    simp [aiInteractionsE, noAiForm, emptyForm, h2, hd]
  exact (claim_C8_ai_guard INDIAN_DEFAULTS noAiForm ⟨0, 0, 0, 0⟩ hb (Or.inl h0)).1

/-- Unrounded `dataKg` of variants A and B, written without `let`. -/
theorem dataKgRawA_eq (cfg : Config) (f : Form) : dataKgRawA cfg f =
    ((numOr0 f.streamingAcademicHrsPerWeek + numOr0 f.streamingNonAcademicHrsPerWeek)
        * 4.345 * cfg.gbPerStreamingHour * 12
      + numOr0 f.largeTransfersPerMonth * 12) * cfg.kgCO2PerGB := rfl

theorem deviceKgRawA_nonneg (cfg : Config) (hg : 0 ≤ cfg.gridKgCO2PerKWh)
    (hp : ∀ t, 0 ≤ cfg.devicePowerW t) (f : Form) : 0 ≤ deviceKgRawA cfg f := by
  unfold deviceKgRawA
  split
  · exact le_refl 0
  · repeat' apply add_nonneg
    all_goals exact rowKgA_nonneg _ _ _ _ (hp _) hg

theorem deviceKgRawB_nonneg (cfg : Config) (hg : 0 ≤ cfg.gridKgCO2PerKWh)
    (hp : ∀ t, 0 ≤ cfg.devicePowerW t) (f : Form) : 0 ≤ deviceKgRawB cfg f := by
  have hrow : ∀ t c d, 0 ≤ rowKgM (cfg.devicePowerW t) cfg.gridKgCO2PerKWh
      (getPowerSourceMultiplier f.renewableEnergyUsage)
      (getChargingMultiplier f.chargingHabits) c d :=
    fun t c d => rowKgM_nonneg _ _ _ _ c d (hp t) hg
      (getPowerSourceMultiplier_nonneg _) (getChargingMultiplier_nonneg _)
  unfold deviceKgRawB
  split
  · exact le_refl 0
  · repeat' apply add_nonneg
    all_goals exact hrow _ _ _

theorem deviceKgRawExt_nonneg (cfg : ConfigExt) (hg : 0 ≤ cfg.gridKgCO2PerKWh)
    (hp : ∀ t, 0 ≤ cfg.devicePowerW t) (f : Form) : 0 ≤ deviceKgRawExt cfg f := by
  have hrow : ∀ t c d, 0 ≤ rowKgM (cfg.devicePowerW t) cfg.gridKgCO2PerKWh
      (getPowerSourceMultiplier f.renewableEnergyUsage)
      (getChargingMultiplier f.chargingHabits) c d :=
    fun t c d => rowKgM_nonneg _ _ _ _ c d (hp t) hg
      (getPowerSourceMultiplier_nonneg _) (getChargingMultiplier_nonneg _)
  unfold deviceKgRawExt
  repeat' apply add_nonneg
  all_goals exact hrow _ _ _

/-- The response with a negative bulk-transfers value. -/
def cexNegForm : Form := { emptyForm with largeTransfersPerMonth := .vstr "-100" }

/-- C3 counterexample: with `largeTransfersPerMonth = "-100"` (a
numeric-string field parsing to a negative number, inside the declared
domain) variant A returns `dataKg = totalKg = -60 < 0`, and the extended
engine returns `dataKg = -78 < 0`; the non-negativity claim fails. -/
theorem claim_C3_counterexample :
    (resultsA DEFAULTS cexNegForm).dataKg = -60
    ∧ (resultsA DEFAULTS cexNegForm).totalKg = -60
    ∧ ∃ b, resultsIndian cexNegForm = .ok b ∧ b.dataKg = -78 ∧ b.dataKg < 0 := by
  have h1 : catStr (.vstr "") = .ok "" := rfl
  have hp0 : jsParseNum "".data = some (0, 0) := by decide
  have hp1 : jsParseNum "-100".data = some (-100, 0) := by decide
  have ha : academicHoursStr "" = 0 := by decide
  have hbb : entertainmentHoursStr "" = 0 := by decide
  have hc : cloudHoursStr "" = 0 := by decide
  have hd : aiInteractionsStr "" = 0 := by decide
  have he : sessionMinutesStr "" = 0 := by decide
  refine ⟨?_, ?_, ⟨⟨0, -78, 0, -78⟩, ?_, by norm_num, by norm_num⟩⟩
  · simp [resultsA, dataKgRawA, aiKgRawA, deviceKgRawA, rowKgA, numOr0, jsNumber,
      hp0, hp1, cexNegForm, emptyForm, jsTruthy, DEFAULTS, round2]
    norm_num [round_eq]
  · simp [resultsA, dataKgRawA, aiKgRawA, deviceKgRawA, rowKgA, numOr0, jsNumber,
      hp0, hp1, cexNegForm, emptyForm, jsTruthy, DEFAULTS, round2]
    norm_num [round_eq]
  · simp [resultsIndian, resultsExt, dataKgRawE, aiKgRawE, academicHoursE,
      entertainmentHoursE, cloudHoursE, aiInteractionsE, sessionMinutesE,
      aiTypeMultiplierE, cexNegForm, emptyForm, h1, ha, hbb, hc, hd, he,
      deviceKgRawExt, rowKgM, numOr0, jsNumber, hp0, hp1,
      getPowerSourceMultiplier, getChargingMultiplier, INDIAN_DEFAULTS, round2]
    norm_num [round_eq]

/-- C3 (amended): each output field of every variant is non-negative for
every response whose numeric-string fields parse to non-negative numbers
(or fail to parse, defaulting to 0); the original claim's inclusion of
negative-parsing numeric fields is dropped, since a negative
`largeTransfersPerMonth` produces a negative `dataKg`
(see the counterexample). -/
theorem claim_C3_nonneg (f : Form) (b : Breakdown)
    (hA : 0 ≤ numOr0 f.streamingAcademicHrsPerWeek)
    (hN : 0 ≤ numOr0 f.streamingNonAcademicHrsPerWeek)
    (hL : 0 ≤ numOr0 f.largeTransfersPerMonth)
    (hI : 0 ≤ numOr0 f.aiInteractionsPerDay)
    (hS : 0 ≤ numOr0 f.typicalAiSessionMinutes)
    (hb : resultsIndian f = .ok b) :
    (0 ≤ (resultsA DEFAULTS f).deviceKg ∧ 0 ≤ (resultsA DEFAULTS f).dataKg
      ∧ 0 ≤ (resultsA DEFAULTS f).aiKg ∧ 0 ≤ (resultsA DEFAULTS f).totalKg)
    ∧ (0 ≤ (resultsB DEFAULTS f).deviceKg ∧ 0 ≤ (resultsB DEFAULTS f).dataKg
      ∧ 0 ≤ (resultsB DEFAULTS f).aiKg ∧ 0 ≤ (resultsB DEFAULTS f).totalKg)
    ∧ (0 ≤ b.deviceKg ∧ 0 ≤ b.dataKg ∧ 0 ≤ b.aiKg ∧ 0 ≤ b.totalKg) := by
  have hgD : (0 : ℚ) ≤ DEFAULTS.gridKgCO2PerKWh := by norm_num [DEFAULTS]
  have hpD : ∀ t, (0 : ℚ) ≤ DEFAULTS.devicePowerW t := fun t => defaultPowerW_nonneg t
  have hdevA : 0 ≤ deviceKgRawA DEFAULTS f := deviceKgRawA_nonneg DEFAULTS hgD hpD f
  have hdevB : 0 ≤ deviceKgRawB DEFAULTS f := deviceKgRawB_nonneg DEFAULTS hgD hpD f
  have hdata : 0 ≤ dataKgRawA DEFAULTS f := by
    rw [dataKgRawA_eq]
    have e1 : (0 : ℚ) ≤ (numOr0 f.streamingAcademicHrsPerWeek
        + numOr0 f.streamingNonAcademicHrsPerWeek)
          * 4.345 * DEFAULTS.gbPerStreamingHour * 12 :=
      mul_nonneg (mul_nonneg (mul_nonneg (add_nonneg hA hN) (by norm_num))
        (by norm_num [DEFAULTS])) (by norm_num)
    have e2 : (0 : ℚ) ≤ numOr0 f.largeTransfersPerMonth * 12 := mul_nonneg hL (by norm_num)
    exact mul_nonneg (add_nonneg e1 e2) (by norm_num [DEFAULTS])
  have hai : 0 ≤ aiKgRawA f := by
    unfold aiKgRawA
    exact mul_nonneg (mul_nonneg (mul_nonneg hI hS) (by norm_num)) (by norm_num)
  unfold resultsIndian at hb
  obtain ⟨da, ai, hda, haiE, hbeq⟩ := resultsExt_ok hb
  have hdevE : 0 ≤ deviceKgRawExt INDIAN_DEFAULTS f :=
    deviceKgRawExt_nonneg INDIAN_DEFAULTS (by norm_num [INDIAN_DEFAULTS])
      (fun t => indianPowerW_nonneg t) f
  have hda0 : 0 ≤ da := by
    obtain ⟨sa, se, sc, -, -, -, hq⟩ := dataKgRawE_ok hda
    rw [hq]
    have e1 : (0 : ℚ) ≤ (academicHoursStr sa + entertainmentHoursStr se)
        * INDIAN_DEFAULTS.gbPerStreamingHourDefault * 52 :=
      mul_nonneg (mul_nonneg (add_nonneg (academicHoursStr_nonneg sa)
        (entertainmentHoursStr_nonneg se)) (by norm_num [INDIAN_DEFAULTS])) (by norm_num)
    have e2 : (0 : ℚ) ≤ cloudHoursStr sc * 52 * 0.5 :=
      mul_nonneg (mul_nonneg (cloudHoursStr_nonneg sc) (by norm_num)) (by norm_num)
    have e3 : (0 : ℚ) ≤ numOr0 f.largeTransfersPerMonth * 12 := mul_nonneg hL (by norm_num)
    exact mul_nonneg (add_nonneg (add_nonneg e1 e2) e3) (by norm_num [INDIAN_DEFAULTS])
  have hai0 : 0 ≤ ai := by
    obtain ⟨si, sm, st, -, -, -, hq⟩ := aiKgRawE_ok haiE
    rw [hq]
    split
    · exact mul_nonneg (mul_nonneg (mul_nonneg (aiInteractionsStr_nonneg si)
        (le_trans zero_le_one (le_max_left 1 _))) (by norm_num))
        (aiTypeMultiplierStr_IN_nonneg st)
    · exact le_refl 0
  subst hbeq
  refine ⟨⟨round2_nonneg hdevA, round2_nonneg hdata, round2_nonneg hai, ?_⟩,
    ⟨round2_nonneg hdevB, round2_nonneg hdata, round2_nonneg hai, ?_⟩,
    round2_nonneg hdevE, round2_nonneg hda0, round2_nonneg hai0, ?_⟩
  · exact round2_nonneg (add_nonneg (add_nonneg hdevA hdata) hai)
  · exact round2_nonneg (add_nonneg (add_nonneg hdevB hdata) hai)
  · exact round2_nonneg (add_nonneg (add_nonneg hdevE hda0) hai0)

/-- Witness for C3 at the empty form. -/
theorem claim_C3_witness :
    0 ≤ (resultsA DEFAULTS emptyForm).totalKg ∧ 0 ≤ (Breakdown.mk 0 0 0 0).dataKg := by
  have hp0 : jsParseNum "".data = some (0, 0) := by decide
  have h0 : (0 : ℚ) ≤ numOr0 (.vstr "") := by simp [numOr0, jsNumber, hp0]
  have hb : resultsIndian emptyForm = .ok ⟨0, 0, 0, 0⟩ := by
    unfold resultsIndian
    exact resultsExt_empty
  have h := claim_C3_nonneg emptyForm ⟨0, 0, 0, 0⟩ h0 h0 h0 h0 h0 hb
  exact ⟨h.1.2.2.2, h.2.2.2.1⟩

/-- C4 counterexample: with the extended variant's configuration
(carbonPrice 3000, social-cost multiplier 1.5), `totalKg = 0.01` converts to
0.05 but `totalKg = 0.02` converts to 0.09 ≠ 2 × 0.05: because the 2-decimal
rounding is applied after the multiplication, doubling `totalKg` does not
exactly double the converted value. -/
theorem claim_C4_counterexample :
    kgToInrExt INDIAN_DEFAULTS (2 * 0.01) ≠ 2 * kgToInrExt INDIAN_DEFAULTS 0.01
    ∧ kgToInrExt INDIAN_DEFAULTS 0.01 = 0.05
    ∧ kgToInrExt INDIAN_DEFAULTS (2 * 0.01) = 0.09 := by
  refine ⟨?_, ?_, ?_⟩ <;>
    norm_num [kgToInrExt, tonneValueExt, socialCostMultiplier, INDIAN_DEFAULTS,
      round2, round_eq]

/-- C4 (amended): currency conversion is linear in `totalKg` before the
final 2-decimal rounding — the unrounded converted value of `2·totalKg` is
exactly twice that of `totalKg` for every fixed carbon price and social-cost
multiplier — and the rounded converted values agree up to at most 0.015
(they can genuinely differ, see the counterexample). -/
theorem claim_C4_linearity (cfg : Config) (cfgE : ConfigExt) (kg : ℚ) (hkg : 0 ≤ kg) :
    tonneValueA cfg (2 * kg) = 2 * tonneValueA cfg kg
    ∧ tonneValueExt cfgE (2 * kg) = 2 * tonneValueExt cfgE kg
    ∧ |kgToInrA cfg (2 * kg) - 2 * kgToInrA cfg kg| ≤ 3 / 200
    ∧ |kgToInrExt cfgE (2 * kg) - 2 * kgToInrExt cfgE kg| ≤ 3 / 200 := by
  have heA : tonneValueA cfg (2 * kg) = 2 * tonneValueA cfg kg := by
    unfold tonneValueA
    ring
  have heE : tonneValueExt cfgE (2 * kg) = 2 * tonneValueExt cfgE kg := by
    unfold tonneValueExt
    ring
  refine ⟨heA, heE, ?_, ?_⟩
  · unfold kgToInrA
    rw [heA]
    exact round2_double_bound (tonneValueA cfg kg)
  · unfold kgToInrExt
    rw [heE]
    exact round2_double_bound (tonneValueExt cfgE kg)

/-- Witness for C4 at `totalKg = 0.01` and the built-in configurations. -/
theorem claim_C4_witness :
    tonneValueExt INDIAN_DEFAULTS (2 * 0.01) = 2 * tonneValueExt INDIAN_DEFAULTS 0.01
    ∧ |kgToInrExt INDIAN_DEFAULTS (2 * 0.01) - 2 * kgToInrExt INDIAN_DEFAULTS 0.01|
        ≤ 3 / 200 := by
  have h := claim_C4_linearity DEFAULTS INDIAN_DEFAULTS 0.01 (by norm_num)
  exact ⟨h.2.1, h.2.2.2⟩

/-- C5 counterexample: at one weekly hour and a rate of 1 GB/hour the
monthly-hours model gives `4.345 × 12 = 52.14` annual GB while the
weekly-hours model gives 52; the two annualization conventions are NOT
mathematically equivalent. -/
theorem claim_C5_counterexample :
    gbStreamingAnnualMonthly 1 1 ≠ gbStreamingAnnualWeekly 1 1
    ∧ gbStreamingAnnualMonthly 1 1 = 52.14
    ∧ gbStreamingAnnualWeekly 1 1 = 52 := by
  refine ⟨?_, ?_, ?_⟩ <;> norm_num [gbStreamingAnnualMonthly, gbStreamingAnnualWeekly]

/-- C5 (amended): for non-negative weekly hours `h` and rate `r` the
monthly model's annual gigabytes are `h·r·52.14` while the weekly model's
are `h·r·52`; the two agree exactly if and only if `h·r = 0` (so they are
only approximately equivalent, ratio 52.14/52). The monthly model is the
one embedded in the `App.js` variants' `dataKg`. -/
theorem claim_C5_annualization (h r : ℚ) (hh : 0 ≤ h) (hr : 0 ≤ r) :
    gbStreamingAnnualMonthly h r = h * r * 52.14
    ∧ gbStreamingAnnualWeekly h r = h * r * 52
    ∧ (gbStreamingAnnualMonthly h r = gbStreamingAnnualWeekly h r ↔ h * r = 0)
    ∧ ∀ cfg f, dataKgRawA cfg f =
        (gbStreamingAnnualMonthly
            (numOr0 f.streamingAcademicHrsPerWeek + numOr0 f.streamingNonAcademicHrsPerWeek)
            cfg.gbPerStreamingHour
          + numOr0 f.largeTransfersPerMonth * 12) * cfg.kgCO2PerGB := by
  have e1 : gbStreamingAnnualMonthly h r = h * r * 52.14 := by
    unfold gbStreamingAnnualMonthly
    ring_nf
  have e2 : gbStreamingAnnualWeekly h r = h * r * 52 := by
    unfold gbStreamingAnnualWeekly
    ring
  refine ⟨e1, e2, ?_, ?_⟩
  · rw [e1, e2]
    constructor
    · intro heq
      have h14 : h * r * (7 / 50) = 0 := by linarith
      linarith
    · intro h0
      rw [h0]
      ring
  · intro cfg f
    rw [dataKgRawA_eq]
    unfold gbStreamingAnnualMonthly
    ring

/-- A form whose `noDevices` flag is a truthy non-boolean and whose
smartphone fields are populated. -/
def truthyFlagForm : Form :=
  { emptyForm with
    noDevices := .vstr "yes"
    smartphone := .vstr "2"
    smartphoneDuration := .vstr "3" }

/-- C6 counterexample: the `noDevices` flag is read by JS truthiness
(`!form.noDevices`), not as a strict boolean: the non-boolean value
`"yes"` also suppresses the device contribution (deviceKg = 0), whereas
with the flag strictly `false` the same populated fields give 7.67 kg. -/
theorem claim_C6_counterexample :
    truthyFlagForm.noDevices ≠ JSVal.vbool true
    ∧ (resultsA DEFAULTS truthyFlagForm).deviceKg = 0
    ∧ (resultsA DEFAULTS
        { truthyFlagForm with noDevices := .vbool false }).deviceKg = 7.67 := by
  have hp0 : jsParseNum "".data = some (0, 0) := by decide
  have hp2 : jsParseNum "2".data = some (2, 0) := by decide
  have hp3 : jsParseNum "3".data = some (3, 0) := by decide
  have hy : "yes".isEmpty = false := by decide
  refine ⟨by decide, ?_, ?_⟩ <;>
    simp [resultsA, deviceKgRawA, rowKgA, numOr0, jsNumber, hp0, hp2, hp3, hy,
      truthyFlagForm, emptyForm, jsTruthy, DEFAULTS, defaultPowerW, round2] <;>
    norm_num [round_eq]

/-- C6 (amended): in the variants with the flag (A and B), whenever
`noDevices` is truthy — in particular whenever it is the boolean `true` —
the engine returns `deviceKg = 0` regardless of all per-device count and
duration fields; the flag is read via JS truthiness (`!form.noDevices`),
not as a strict boolean, so truthy non-boolean values also suppress. -/
theorem claim_C6_no_devices (cfg : Config) (f : Form)
    (h : jsTruthy f.noDevices = true) :
    (resultsA cfg f).deviceKg = 0
    ∧ (resultsB cfg f).deviceKg = 0
    ∧ (resultsA cfg f).totalKg = round2 (dataKgRawA cfg f + aiKgRawA f)
    ∧ jsTruthy (JSVal.vbool true) = true := by
  have hA : deviceKgRawA cfg f = 0 := by
    unfold deviceKgRawA
    rw [if_pos h]
  have hB : deviceKgRawB cfg f = 0 := by
    unfold deviceKgRawB
    rw [if_pos h]
  refine ⟨?_, ?_, ?_, rfl⟩
  · show round2 (deviceKgRawA cfg f) = 0
    rw [hA, round2_zero]
  · show round2 (deviceKgRawB cfg f) = 0
    rw [hB, round2_zero]
  · show round2 (deviceKgRawA cfg f + dataKgRawA cfg f + aiKgRawA f) = _
    rw [hA, zero_add]

/-- Witness for C6: the boolean flag `true` with populated device fields. -/
theorem claim_C6_witness :
    (resultsA DEFAULTS
      { truthyFlagForm with noDevices := .vbool true }).deviceKg = 0
    ∧ (resultsB DEFAULTS
      { truthyFlagForm with noDevices := .vbool true }).deviceKg = 0 := by
  have h := claim_C6_no_devices DEFAULTS
    { truthyFlagForm with noDevices := .vbool true } rfl
  exact ⟨h.1, h.2.1⟩

/-- C9: device emissions are monotonically non-decreasing in every device
count and duration field: for any non-negative configuration (grid
intensity and power draws; the multiplier tables only contain non-negative
values) and any two responses that agree on the flag and multiplier fields
and whose parsed count/duration fields are pointwise ≤, the returned
`deviceKg` does not decrease — in variant A, in variant B, and in the
extended variant (whose returned `deviceKg` is `round2` of
`deviceKgRawExt`). -/
theorem claim_C9_device_monotone (cfg : Config) (cfgE : ConfigExt)
    (hg : 0 ≤ cfg.gridKgCO2PerKWh) (hp : ∀ t, 0 ≤ cfg.devicePowerW t)
    (hgE : 0 ≤ cfgE.gridKgCO2PerKWh) (hpE : ∀ t, 0 ≤ cfgE.devicePowerW t)
    (f f' : Form)
    (hnd : f'.noDevices = f.noDevices)
    (hre : f'.renewableEnergyUsage = f.renewableEnergyUsage)
    (hch : f'.chargingHabits = f.chargingHabits)
    (hc1 : numOr0 f.smartphone ≤ numOr0 f'.smartphone)
    (hc2 : numOr0 f.laptop ≤ numOr0 f'.laptop)
    (hc3 : numOr0 f.tablet ≤ numOr0 f'.tablet)
    (hc4 : numOr0 f.desktop ≤ numOr0 f'.desktop)
    (hc5 : numOr0 f.smartTV ≤ numOr0 f'.smartTV)
    (hc6 : numOr0 f.gamingConsole ≤ numOr0 f'.gamingConsole)
    (hc7 : numOr0 f.streamingDevice ≤ numOr0 f'.streamingDevice)
    (hc8 : numOr0 f.smartHomeDevices ≤ numOr0 f'.smartHomeDevices)
    (hc9 : numOr0 f.router ≤ numOr0 f'.router)
    (hc10 : numOr0 f.otherDevices ≤ numOr0 f'.otherDevices)
    (hd1 : numOr0 f.smartphoneDuration ≤ numOr0 f'.smartphoneDuration)
    (hd2 : numOr0 f.laptopDuration ≤ numOr0 f'.laptopDuration)
    (hd3 : numOr0 f.tabletDuration ≤ numOr0 f'.tabletDuration)
    (hd4 : numOr0 f.desktopDuration ≤ numOr0 f'.desktopDuration)
    (hd5 : numOr0 f.smartTVDuration ≤ numOr0 f'.smartTVDuration)
    (hd6 : numOr0 f.gamingConsoleDuration ≤ numOr0 f'.gamingConsoleDuration)
    (hd7 : numOr0 f.streamingDeviceDuration ≤ numOr0 f'.streamingDeviceDuration)
    (hd8 : numOr0 f.smartHomeDevicesDuration ≤ numOr0 f'.smartHomeDevicesDuration)
    (hd9 : numOr0 f.routerDuration ≤ numOr0 f'.routerDuration)
    (hd10 : numOr0 f.otherDevicesDuration ≤ numOr0 f'.otherDevicesDuration) :
    (resultsA cfg f).deviceKg ≤ (resultsA cfg f').deviceKg
    ∧ (resultsB cfg f).deviceKg ≤ (resultsB cfg f').deviceKg
    ∧ round2 (deviceKgRawExt cfgE f) ≤ round2 (deviceKgRawExt cfgE f') := by
  have mA : ∀ t {c c' d d' : ℚ}, c ≤ c' → d ≤ d' →
      rowKgA (cfg.devicePowerW t) cfg.gridKgCO2PerKWh c d
        ≤ rowKgA (cfg.devicePowerW t) cfg.gridKgCO2PerKWh c' d' :=
    fun t {c c' d d'} hc hd => rowKgA_mono _ _ (hp t) hg hc hd
  have mB : ∀ t {c c' d d' : ℚ}, c ≤ c' → d ≤ d' →
      rowKgM (cfg.devicePowerW t) cfg.gridKgCO2PerKWh
          (getPowerSourceMultiplier f.renewableEnergyUsage)
          (getChargingMultiplier f.chargingHabits) c d
        ≤ rowKgM (cfg.devicePowerW t) cfg.gridKgCO2PerKWh
            (getPowerSourceMultiplier f.renewableEnergyUsage)
            (getChargingMultiplier f.chargingHabits) c' d' :=
    fun t {c c' d d'} hc hd => rowKgM_mono _ _ _ _ (hp t) hg
      (getPowerSourceMultiplier_nonneg _) (getChargingMultiplier_nonneg _) hc hd
  have mE : ∀ t {c c' d d' : ℚ}, c ≤ c' → d ≤ d' →
      rowKgM (cfgE.devicePowerW t) cfgE.gridKgCO2PerKWh
          (getPowerSourceMultiplier f.renewableEnergyUsage)
          (getChargingMultiplier f.chargingHabits) c d
        ≤ rowKgM (cfgE.devicePowerW t) cfgE.gridKgCO2PerKWh
            (getPowerSourceMultiplier f.renewableEnergyUsage)
            (getChargingMultiplier f.chargingHabits) c' d' :=
    fun t {c c' d d'} hc hd => rowKgM_mono _ _ _ _ (hpE t) hgE
      (getPowerSourceMultiplier_nonneg _) (getChargingMultiplier_nonneg _) hc hd
  have hA : deviceKgRawA cfg f ≤ deviceKgRawA cfg f' := by
    unfold deviceKgRawA
    rw [hnd]
    by_cases hND : jsTruthy f.noDevices = true
    · rw [if_pos hND, if_pos hND]
    · rw [if_neg hND, if_neg hND]
      exact add_le_add (add_le_add (add_le_add (add_le_add (add_le_add (add_le_add
        (add_le_add (add_le_add (add_le_add (mA _ hc1 hd1) (mA _ hc2 hd2))
        (mA _ hc3 hd3)) (mA _ hc4 hd4)) (mA _ hc5 hd5)) (mA _ hc6 hd6))
        (mA _ hc7 hd7)) (mA _ hc8 hd8)) (mA _ hc9 hd9)) (mA _ hc10 hd10)
  have hB : deviceKgRawB cfg f ≤ deviceKgRawB cfg f' := by
    unfold deviceKgRawB
    rw [hnd, hre, hch]
    by_cases hND : jsTruthy f.noDevices = true
    · rw [if_pos hND, if_pos hND]
    · rw [if_neg hND, if_neg hND]
      exact add_le_add (add_le_add (add_le_add (add_le_add (add_le_add (add_le_add
        (add_le_add (add_le_add (add_le_add (mB _ hc1 hd1) (mB _ hc2 hd2))
        (mB _ hc3 hd3)) (mB _ hc4 hd4)) (mB _ hc5 hd5)) (mB _ hc6 hd6))
        (mB _ hc7 hd7)) (mB _ hc8 hd8)) (mB _ hc9 hd9)) (mB _ hc10 hd10)
  have hE : deviceKgRawExt cfgE f ≤ deviceKgRawExt cfgE f' := by
    unfold deviceKgRawExt
    rw [hre, hch]
    exact add_le_add (add_le_add (add_le_add (add_le_add (add_le_add (add_le_add
      (add_le_add (add_le_add (add_le_add (mE _ hc1 hd1) (mE _ hc2 hd2))
      (mE _ hc3 hd3)) (mE _ hc4 hd4)) (mE _ hc5 hd5)) (mE _ hc6 hd6))
      (mE _ hc7 hd7)) (mE _ hc8 hd8)) (mE _ hc9 hd9)) (mE _ hc10 hd10)
  exact ⟨round2_mono hA, round2_mono hB, round2_mono hE⟩

/-- A form with one more smartphone and longer smartphone usage than the
empty form. -/
def biggerForm : Form :=
  { emptyForm with
    smartphone := .vstr "2"
    smartphoneDuration := .vstr "4" }

/-- Witness for C9: raising the smartphone count from (empty ≡ 0) to 2 and
its daily hours to 4 does not decrease `deviceKg` in any variant. -/
theorem claim_C9_witness :
    (resultsA DEFAULTS emptyForm).deviceKg ≤ (resultsA DEFAULTS biggerForm).deviceKg
    ∧ (resultsB DEFAULTS emptyForm).deviceKg ≤ (resultsB DEFAULTS biggerForm).deviceKg := by
  have hp0 : jsParseNum "".data = some (0, 0) := by decide
  have hp2 : jsParseNum "2".data = some (2, 0) := by decide
  have hp4 : jsParseNum "4".data = some (4, 0) := by decide
  have e0 : numOr0 (.vstr "") = 0 := by simp [numOr0, jsNumber, hp0]
  have e2 : numOr0 (.vstr "2") = 2 := by
    simp [numOr0, jsNumber, hp2]
  have e4 : numOr0 (.vstr "4") = 4 := by
    simp [numOr0, jsNumber, hp4]
  have hsc : numOr0 emptyForm.smartphone ≤ numOr0 biggerForm.smartphone := by
    show numOr0 (.vstr "") ≤ numOr0 (.vstr "2")
    rw [e0, e2]
    norm_num
  have hsd : numOr0 emptyForm.smartphoneDuration ≤ numOr0 biggerForm.smartphoneDuration := by
    show numOr0 (.vstr "") ≤ numOr0 (.vstr "4")
    rw [e0, e4]
    norm_num
  have h := claim_C9_device_monotone DEFAULTS INDIAN_DEFAULTS
    (by norm_num [DEFAULTS]) (fun t => defaultPowerW_nonneg t)
    (by norm_num [INDIAN_DEFAULTS]) (fun t => indianPowerW_nonneg t)
    emptyForm biggerForm rfl rfl rfl
    hsc (le_refl _) (le_refl _) (le_refl _) (le_refl _) (le_refl _) (le_refl _)
    (le_refl _) (le_refl _) (le_refl _)
    hsd (le_refl _) (le_refl _) (le_refl _) (le_refl _) (le_refl _) (le_refl _)
    (le_refl _) (le_refl _) (le_refl _)
  exact ⟨h.1, h.2.1⟩

/-- A categorical field value on which the extended variant's
`(form.x || "").includes(...)` cannot throw: a string, or any falsy value
(which `|| ""` replaces by the empty string). -/
def catFieldOk (v : JSVal) : Bool :=
  match v with
  | .vstr _ => true
  | _ => !jsTruthy v

/-- A well-shaped categorical field normalizes without a `TypeError`. -/
theorem catStr_isOk {v : JSVal} (h : catFieldOk v = true) : ∃ s, catStr v = .ok s := by
  by_cases ht : jsTruthy v = true
  · cases v with
    | vstr s =>
      refine ⟨s, ?_⟩
      unfold catStr
      rw [if_pos ht]
    | vnum q => simp [catFieldOk, ht] at h
    | vbool b => simp [catFieldOk, ht] at h
    | vundef => simp [catFieldOk, ht] at h
  · refine ⟨"", ?_⟩
    unfold catStr
    rw [if_neg ht]

/-- C10 (amended): the extended engine is total — it returns a breakdown
without reaching the error state — for every response whose six categorical
fields are each a string or a falsy value (any numeric, boolean or undefined
field elsewhere is tolerated; the two simple variants are embedded as total
functions on the whole domain).  A truthy non-string categorical field makes
the extended engine raise a `TypeError` (see the counterexample), so the
original claim's full domain must be restricted this way. -/
theorem claim_C10_totality (cfgE : ConfigExt) (f : Form)
    (h1 : catFieldOk f.streamingAcademicHrsPerWeek = true)
    (h2 : catFieldOk f.streamingNonAcademicHrsPerWeek = true)
    (h3 : catFieldOk f.cloudHoursPerWeek = true)
    (h4 : catFieldOk f.aiInteractionsPerDay = true)
    (h5 : catFieldOk f.typicalAiSessionMinutes = true)
    (h6 : catFieldOk f.aiUsageTypes = true) :
    ∃ b, resultsExt cfgE f = .ok b := by
  obtain ⟨sa, ea⟩ := catStr_isOk h1
  obtain ⟨se, ee⟩ := catStr_isOk h2
  obtain ⟨sc, ec⟩ := catStr_isOk h3
  obtain ⟨si, ei⟩ := catStr_isOk h4
  obtain ⟨sm, em⟩ := catStr_isOk h5
  obtain ⟨st, et⟩ := catStr_isOk h6
  unfold resultsExt dataKgRawE aiKgRawE academicHoursE entertainmentHoursE
    cloudHoursE aiInteractionsE sessionMinutesE aiTypeMultiplierE
  rw [ea, ee, ec, ei, em, et]
  exact ⟨_, rfl⟩

/-- A response whose AI-interactions field holds the number 5 instead of a
range label (inside the spec's declared domain of strings, numbers,
booleans and undefined). -/
def numericAiForm : Form := { emptyForm with aiInteractionsPerDay := .vnum (some 5) }

/-- C10 counterexample: on a response whose AI-interactions field is the
number 5, the extended engine does not return a breakdown: the first
`.includes` call on the non-string receiver raises a `TypeError`, so the
engine is not total on the full declared domain. -/
theorem claim_C10_counterexample :
    resultsIndian numericAiForm = .error "TypeError" := by
  have h1 : catStr (.vstr "") = .ok "" := rfl
  have h5 : jsTruthy (.vnum (some 5)) = true := by
    simp [jsTruthy]
  have hc : catStr (.vnum (some 5)) = .error "TypeError" := by
    unfold catStr
    rw [if_pos h5]
  have ha : academicHoursStr "" = 0 := by decide
  have hbb : entertainmentHoursStr "" = 0 := by decide
  have hcc : cloudHoursStr "" = 0 := by decide
  simp [resultsIndian, resultsExt, dataKgRawE, aiKgRawE, academicHoursE,
    entertainmentHoursE, cloudHoursE, aiInteractionsE, numericAiForm, emptyForm,
    h1, hc, ha, hbb, hcc]

/-- Witness for C10 at the empty form (all categorical fields are
strings). -/
theorem claim_C10_witness : ∃ b, resultsExt INDIAN_DEFAULTS emptyForm = .ok b :=
  claim_C10_totality INDIAN_DEFAULTS emptyForm (by decide) (by decide) (by decide)
    (by decide) (by decide) (by decide)

/-- Witness for C5 at one weekly hour and a 1 GB/hour rate. -/
theorem claim_C5_witness :
    gbStreamingAnnualMonthly 1 1 = 1 * 1 * 52.14
    ∧ gbStreamingAnnualWeekly 1 1 = 1 * 1 * 52 := by
  have h := claim_C5_annualization 1 1 (by norm_num) (by norm_num)
  exact ⟨h.1, h.2.1⟩
